import Mathlib

/-!
Shallow embedding of `src/ble/env_sensing_temp/thermistor_app.c`
(BLE Environmental Sensing thermistor application, CE226300).

The application code in that file is event-driven straight-line C: a
Bluetooth-management callback, a periodic-timer callback, a one-time
initialization sequence and an advertisement-data builder. We embed each
function as a pure Lean function from its inputs (the values returned by the
external stack/driver calls, collected in `Env`; the generated-configuration
data, collected in `Config`; the mutable globals, collected in `AppState`)
to its outputs: the new global state and the ordered list of externally
visible effects (stack calls and diagnostic-trace lines) it performs.

Machine integers are modelled as `Nat`/`Int` with explicit truncation where
the C code truncates: the `int16_t` temperature is an `Int`, and the two
stored bytes apply the same `& 0xff` masking (as `% 256` on the Euclidean
remainder, which agrees with two's-complement masking and the arithmetic
right shift the C code performs on `int16_t`).
-/

namespace Thermistor

/-! ### Constants

`POLL_TIMER_IN_MS` is defined in `thermistor_app.c` (line 78). The remaining
numeric constants come from the vendor-SDK headers the file includes
(`wiced_bt_ble.h`, `wiced_bt_gatt.h`, `wiced_bt_uuid.h`); their values are the
standard Bluetooth assigned numbers / AIROC SDK values.
-/

def POLL_TIMER_IN_MS : Nat := 5000

def WICED_SUCCESS : Nat := 0

def WICED_BT_GATT_SUCCESS : Nat := 0

/-- Bit 0 of the client characteristic configuration: notifications. -/
def GATT_CLIENT_CONFIG_NOTIFICATION : Nat := 1

/-- Bit 1 of the client characteristic configuration: indications. -/
def GATT_CLIENT_CONFIG_INDICATION : Nat := 2

def BTM_BLE_GENERAL_DISCOVERABLE_FLAG : Nat := 0x02

def BTM_BLE_BREDR_NOT_SUPPORTED : Nat := 0x04

/-- Advertisement-element type tag 0x01: flags. -/
def BTM_BLE_ADVERT_TYPE_FLAG : Nat := 0x01

/-- Advertisement-element type tag 0x09: complete local name. -/
def BTM_BLE_ADVERT_TYPE_NAME_COMPLETE : Nat := 0x09

/-- Advertisement-element type tag 0x03: complete list of 16-bit service UUIDs. -/
def BTM_BLE_ADVERT_TYPE_16SRV_COMPLETE : Nat := 0x03

/-- Advertisement-element type tag 0x02: incomplete list of 16-bit service UUIDs. -/
def BTM_BLE_ADVERT_TYPE_16SRV_PARTIAL : Nat := 0x02

def UUID_SERVICE_ENVIRONMENTAL_SENSING : Nat := 0x181A

def BTM_BLE_ADVERT_UNDIRECTED_HIGH : Nat := 3

def BLE_ADDR_PUBLIC : Nat := 0

/-! ### Data model -/

/-- `wiced_bt_ble_advert_elem_t`: one typed-length-value advertisement
element. `p_data` holds the bytes the element's data pointer points at. -/
structure wiced_bt_ble_advert_elem_t where
  advert_type : Nat
  len : Nat
  p_data : List Nat
deriving DecidableEq, Repr

/-- The timer mode passed to `wiced_init_timer`. -/
inductive TimerMode where
  | WICED_MILLI_SECONDS_PERIODIC_TIMER
  | otherMode (code : Nat)
deriving DecidableEq, Repr

/-- The Bluetooth management events the callback distinguishes
(`wiced_bt_management_evt_t`); everything else lands in the `default`
branch of the C switch, modelled by `unrecognized`. -/
inductive MgmtEvent where
  | BTM_ENABLED_EVT
  | BTM_DISABLED_EVT
  | BTM_BLE_ADVERT_STATE_CHANGED_EVT (advert_mode : Nat)
  | BTM_BLE_PHY_UPDATE_EVT (tx_phy : Nat) (rx_phy : Nat)
  | unrecognized (code : Nat)
deriving DecidableEq, Repr

/-- One diagnostic line (a `WICED_BT_TRACE` call site). Each constructor
stands for one distinct format string of `thermistor_app.c`; consecutive
trace calls printing the pieces of one message are folded into one
constructor carrying the varying data. -/
inductive LogMsg where
  /-- The startup banner printed on `BTM_ENABLED_EVT` (shows the poll interval). -/
  | appBanner (pollMs : Nat)
  /-- "Discover this device with the name ..." -/
  | discoverName (name : List Nat)
  /-- "Bluetooth Device Address: ..." -/
  | bdaddr
  /-- "Bluetooth Management Event: <btm_event_name(event)>" -/
  | mgmtEventName (event : MgmtEvent)
  /-- "GATT status: <gatt_status_name(status)>" -/
  | gattStatusName (status : Nat)
  /-- "GATT DB Initialization not successful" -/
  | gattDbInitFailed
  /-- "Seconds Timer Error" -/
  | secondsTimerError
  /-- "Raw advertisement failed" -/
  | rawAdvertisementFailed
  /-- "OTA upgrade Init failure !!!" -/
  | otaInitFailure
  /-- "Starting undirected BLE advertisements successful" -/
  | startAdvSuccess
  /-- "Bluetooth Disabled" -/
  | bluetoothDisabled
  /-- "Advertisement state changed to <mode>" -/
  | advertStateChanged (mode : Nat)
  /-- "PHY config is updated as TX_PHY : %dM, RX_PHY : %dM" -/
  | phyUpdated (tx_phy : Nat) (rx_phy : Nat)
  /-- "Temperature (in degree Celsius) %d.%02d" — the C code formats
  `temperature / 100` and `ABS(temperature % 100)`; the constructor carries
  the raw reading. -/
  | temperatureReading (temperature : Int)
  /-- "connected to a central device and GATT client notifications are enabled" -/
  | connectedNotifyEnabled
  /-- "connected to a central device and GATT client notifications are not enabled" -/
  | connectedNotifyDisabled
  /-- "not connected to any BLE central device" -/
  | notConnected
deriving DecidableEq, Repr

/-- One externally visible action of the application code: a diagnostic
trace or a call across the stack/driver boundary, with the arguments the
application passes. `stopTimer` exists so that "the timer is never paused"
is expressible; no function of the file emits it. -/
inductive Effect where
  | trace (msg : LogMsg)
  | readLocalAddr
  | gattRegister
  | gattDbInit
  | thermistorInit
  | initTimer (mode : TimerMode)
  | startTimer (periodMs : Nat)
  | stopTimer
  | setRawAdvertisementData (num_elem : Nat) (elems : List wiced_bt_ble_advert_elem_t)
  | setPairableMode (allow_pairing : Bool) (connect_only : Bool)
  | otaFwUpgradeInit
  | startAdvertisements (advert_mode : Nat) (addr_type : Nat)
  | sendNotification (conn_id : Nat) (attr_handle : Nat) (val_len : Nat)
      (p_val : List Nat)
deriving DecidableEq, Repr

/-- The mutable globals shared between the callbacks:
`thermistor_conn_id` (`uint16_t`, `thermistor_app.c` line 119; 0 is the
"no connection" sentinel) and, from the generated GATT database
(`cycfg_gatt_db.c`), the 2-byte characteristic-value buffer
`app_ess_temperature` and the 2-byte client characteristic configuration
`app_ess_temperature_client_char_config` (its two bytes as two fields). -/
structure AppState where
  thermistor_conn_id : Nat
  client_char_config0 : Nat
  client_char_config1 : Nat
  app_ess_temperature : List Nat
deriving DecidableEq, Repr

/-- The results the external stack/driver calls return in one run, and the
status a `wiced_bt_gatt_send_notification` call would report. `0` is
`WICED_SUCCESS` / `WICED_BT_GATT_SUCCESS`. -/
structure Env where
  gatt_register_status : Nat
  gatt_db_init_status : Nat
  init_timer_result : Nat
  start_timer_result : Nat
  set_raw_adv_result : Nat
  ota_init_ok : Bool
  start_adv_result : Nat
  send_notification_status : Nat
deriving DecidableEq, Repr

/-- Generated configuration data the file references. `app_gap_device_name`
and its length and `HDLC_ESS_TEMPERATURE_VALUE` come from the generated
`cycfg_gatt_db` sources, which are not under `src/`.
`uuid_adv_byte`/`uuid_adv_len` model the third advertisement element's data:
the C code stores `FROM_BIT16_TO_8(UUID_SERVICE_ENVIRONMENTAL_SENSING)`
(a macro from `thermistor_util_functions.h`, also not under `src/`) into a
single `uint8_t uuid_data` and uses `sizeof(FROM_BIT16_TO_8(...))` as the
element length, so the element's pointer addresses exactly one byte; the
byte's value and the declared length are kept abstract here. -/
structure Config where
  app_gap_device_name : List Nat
  app_gap_device_name_len : Nat
  app_ess_temperature_len : Nat
  hdlc_ess_temperature_value : Nat
  uuid_adv_byte : Nat
  uuid_adv_len : Nat
deriving DecidableEq, Repr

/-! ### PayloadCodec -/

/-- The two stores of `seconds_timer_temperature_cb`
(`thermistor_app.c` lines 289-290):
`app_ess_temperature[0] = (uint8_t)(temperature & 0xff);`
`app_ess_temperature[1] = (uint8_t)((temperature >> 8) & 0xff);`
For an `int16_t`, `& 0xff` of the two's-complement value is the Euclidean
remainder `% 256`, and the arithmetic right shift `>> 8` is flooring
division by 256, which Lean's `Int` division (Euclidean, positive divisor)
computes. -/
def encode_ess_temperature (temperature : Int) : List Nat :=
  [(temperature % 256).toNat, ((temperature / 256) % 256).toNat]

/-- Modelled from the spec: the repository contains only the encoder; the
spec (§3, §6) fixes the WirePayload as "exactly 2 bytes, little-endian
two's-complement", so the peer-side decoder reads byte 0 + 256·byte 1 and
re-centres values ≥ 2^15 into the negative range. -/
def decode_wire_payload (b : List Nat) : Int :=
  let u : Nat := b.headD 0 % 256 + 256 * (b.getD 1 0 % 256)
  if u < 32768 then (u : Int) else (u : Int) - 65536

/-! ### PeriodicSampler / NotificationGate -/

/-- `seconds_timer_temperature_cb` (`thermistor_app.c` lines 273-321).
`temperature` is the value `thermistor_read()` returned (an `int16_t`).
The function logs the reading, stores its two bytes into
`app_ess_temperature`, and then, iff `thermistor_conn_id != 0` and the
notification bit of `app_ess_temperature_client_char_config[0]` is set,
calls `wiced_bt_gatt_send_notification`, whose returned status
(`env.send_notification_status`) the C code discards. -/
def seconds_timer_temperature_cb (env : Env) (cfg : Config) (temperature : Int)
    (st : AppState) : AppState × List Effect :=
  let st' : AppState := { st with app_ess_temperature := encode_ess_temperature temperature }
  if st'.thermistor_conn_id ≠ 0 then
    if st'.client_char_config0 &&& GATT_CLIENT_CONFIG_NOTIFICATION ≠ 0 then
      (st', [Effect.trace (LogMsg.temperatureReading temperature),
             Effect.trace LogMsg.connectedNotifyEnabled,
             Effect.sendNotification st'.thermistor_conn_id
               cfg.hdlc_ess_temperature_value cfg.app_ess_temperature_len
               st'.app_ess_temperature])
    else
      (st', [Effect.trace (LogMsg.temperatureReading temperature),
             Effect.trace LogMsg.connectedNotifyDisabled])
  else
    (st', [Effect.trace (LogMsg.temperatureReading temperature),
           Effect.trace LogMsg.notConnected])

/-! ### AdvertisementConfigurator -/

/-- The `adv_elem[3]` array filled in by `thermistor_set_advertisement_data`
(`thermistor_app.c` lines 418-439), exactly as the C code fills it: element 0
is the flags element (1 byte, general-discoverable | BR/EDR-not-supported),
element 1 the complete local name, and element 2 — note — again carries
`advert_type = BTM_BLE_ADVERT_TYPE_FLAG`, not a service-UUID tag, with
`&uuid_data` (one byte) as its data pointer. -/
def adv_elem (cfg : Config) : List wiced_bt_ble_advert_elem_t :=
  [⟨BTM_BLE_ADVERT_TYPE_FLAG, 1,
     [BTM_BLE_GENERAL_DISCOVERABLE_FLAG ||| BTM_BLE_BREDR_NOT_SUPPORTED]⟩,
   ⟨BTM_BLE_ADVERT_TYPE_NAME_COMPLETE, cfg.app_gap_device_name_len,
     cfg.app_gap_device_name⟩,
   ⟨BTM_BLE_ADVERT_TYPE_FLAG, cfg.uuid_adv_len, [cfg.uuid_adv_byte]⟩]

/-- `thermistor_set_advertisement_data` (`thermistor_app.c` lines 415-444).
Builds the three `adv_elem` entries, calls
`wiced_bt_ble_set_raw_advertisement_data(num_elem, adv_elem)` with
`num_elem = 3` and returns that call's result. -/
def thermistor_set_advertisement_data (env : Env) (cfg : Config) :
    Nat × List Effect :=
  (env.set_raw_adv_result, [Effect.setRawAdvertisementData 3 (adv_elem cfg)])

/-! ### StackEventDispatcher: one-time initialization -/

/-- `thermistor_app_init` (`thermistor_app.c` lines 335-402), as the ordered
list of effects it performs. Every branch of the C function only decides
which diagnostic to print or (for the timer) whether the follow-up call is
made; no failure returns early. -/
def thermistor_app_init (env : Env) (cfg : Config) : List Effect :=
  [Effect.gattRegister,
   Effect.trace (LogMsg.gattStatusName env.gatt_register_status),
   Effect.gattDbInit] ++
  (if env.gatt_db_init_status ≠ WICED_BT_GATT_SUCCESS
     then [Effect.trace LogMsg.gattDbInitFailed] else []) ++
  [Effect.thermistorInit,
   Effect.initTimer TimerMode.WICED_MILLI_SECONDS_PERIODIC_TIMER] ++
  (if env.init_timer_result = WICED_SUCCESS then
     [Effect.startTimer POLL_TIMER_IN_MS] ++
     (if env.start_timer_result ≠ WICED_SUCCESS
        then [Effect.trace LogMsg.secondsTimerError] else [])
   else []) ++
  (thermistor_set_advertisement_data env cfg).2 ++
  (if (thermistor_set_advertisement_data env cfg).1 ≠ WICED_SUCCESS
     then [Effect.trace LogMsg.rawAdvertisementFailed] else []) ++
  [Effect.setPairableMode false true,
   Effect.otaFwUpgradeInit] ++
  (if env.ota_init_ok = false then [Effect.trace LogMsg.otaInitFailure] else []) ++
  [Effect.startAdvertisements BTM_BLE_ADVERT_UNDIRECTED_HIGH BLE_ADDR_PUBLIC] ++
  (if env.start_adv_result = WICED_SUCCESS
     then [Effect.trace LogMsg.startAdvSuccess] else [])

/-! ### StackEventDispatcher: management callback -/

/-- `thermistor_management_callback` (`thermistor_app.c` lines 183-260).
Returns the new global state, the effect list and the returned
`wiced_bt_dev_status_t` (the local `status`, initialized to `WICED_SUCCESS`
and never reassigned). -/
def thermistor_management_callback (event : MgmtEvent) (env : Env) (cfg : Config)
    (st : AppState) : AppState × List Effect × Nat :=
  match event with
  | MgmtEvent.BTM_ENABLED_EVT =>
      (st,
       [Effect.trace (LogMsg.appBanner POLL_TIMER_IN_MS),
        Effect.trace (LogMsg.discoverName cfg.app_gap_device_name),
        Effect.readLocalAddr,
        Effect.trace LogMsg.bdaddr,
        Effect.trace (LogMsg.mgmtEventName MgmtEvent.BTM_ENABLED_EVT)] ++
       thermistor_app_init env cfg,
       WICED_SUCCESS)
  | MgmtEvent.BTM_DISABLED_EVT =>
      (st,
       [Effect.trace (LogMsg.mgmtEventName MgmtEvent.BTM_DISABLED_EVT),
        Effect.trace LogMsg.bluetoothDisabled],
       WICED_SUCCESS)
  | MgmtEvent.BTM_BLE_ADVERT_STATE_CHANGED_EVT m =>
      (st,
       [Effect.trace (LogMsg.mgmtEventName (MgmtEvent.BTM_BLE_ADVERT_STATE_CHANGED_EVT m)),
        Effect.trace (LogMsg.advertStateChanged m)],
       WICED_SUCCESS)
  | MgmtEvent.BTM_BLE_PHY_UPDATE_EVT tx rx =>
      (st,
       [Effect.trace (LogMsg.mgmtEventName (MgmtEvent.BTM_BLE_PHY_UPDATE_EVT tx rx)),
        Effect.trace (LogMsg.phyUpdated tx rx)],
       WICED_SUCCESS)
  | MgmtEvent.unrecognized _ => (st, [], WICED_SUCCESS)

/-! ### Observation helpers -/

/-- Recognizes a notification-send effect. -/
def isSendNotification : Effect → Bool
  | Effect.sendNotification _ _ _ _ => true
  | _ => false

/-- Number of notification-send requests in an effect list. -/
def sendCount (t : List Effect) : Nat := (t.filter isSendNotification).length

/-- The diagnostic messages of the file that report a failure. -/
def isFailureLog : LogMsg → Bool
  | LogMsg.gattDbInitFailed => true
  | LogMsg.secondsTimerError => true
  | LogMsg.rawAdvertisementFailed => true
  | LogMsg.otaInitFailure => true
  | _ => false

/-- Recognizes a trace effect carrying a failure diagnostic. -/
def isFailureTrace : Effect → Bool
  | Effect.trace m => isFailureLog m
  | _ => false

/-- Recognizes any timer operation (creation, arming, pausing). -/
def isTimerOp : Effect → Bool
  | Effect.initTimer _ => true
  | Effect.startTimer _ => true
  | Effect.stopTimer => true
  | _ => false

/-- Recognizes the three setup steps (service-table registration, database
load, sensor initialization) and the two launch steps (arming the sampling
timer, starting advertising) whose relative order the initialization
sequence constrains. -/
def isSetupOrLaunch : Effect → Bool
  | Effect.gattRegister => true
  | Effect.gattDbInit => true
  | Effect.thermistorInit => true
  | Effect.startTimer _ => true
  | Effect.startAdvertisements _ _ => true
  | _ => false

/-! ### Concrete run instances -/

/-- A run in which every external call succeeds except the final
`wiced_bt_start_advertisements`, which fails (result 1). -/
def envAdvStartFails : Env := ⟨0, 0, 0, 0, 0, true, 1, 0⟩

/-- A run in which every external call succeeds but
`wiced_bt_gatt_send_notification` reports a failure status (0x85). -/
def envSendFails : Env := ⟨0, 0, 0, 0, 0, true, 0, 0x85⟩

/-- A concrete generated configuration: 2-byte device name, the 2-byte
temperature characteristic at handle 0x29, one byte of service-UUID data
in the third advertisement element. -/
def cfgExample : Config := ⟨[84, 72], 2, 2, 0x29, 0x18, 1⟩

end Thermistor

namespace Thermistor

/-! ### Theorems -/

/-- C1: on every timer tick, a notification send is requested iff
`thermistor_conn_id ≠ 0` and the notification-enabled bit of the client
characteristic configuration is set; in the three other combinations the
tick issues no send request and emits no failure diagnostic (a silent
no-op, not an error). -/
theorem tick_notification_gate (env : Env) (cfg : Config) (temperature : Int)
    (st : AppState) :
    sendCount (seconds_timer_temperature_cb env cfg temperature st).2 =
      (if st.thermistor_conn_id ≠ 0 ∧
          st.client_char_config0 &&& GATT_CLIENT_CONFIG_NOTIFICATION ≠ 0
       then 1 else 0) ∧
    (seconds_timer_temperature_cb env cfg temperature st).2.filter isFailureTrace = [] := by
  unfold seconds_timer_temperature_cb sendCount
  by_cases h1 : st.thermistor_conn_id ≠ 0 <;>
    by_cases h2 : st.client_char_config0 &&& GATT_CLIENT_CONFIG_NOTIFICATION ≠ 0 <;>
      simp [h1, h2, isSendNotification, isFailureTrace, isFailureLog]

/-- C2: encoding a 16-bit signed reading as the 2-byte little-endian
two's-complement WirePayload and decoding it back yields the reading. -/
theorem wire_payload_round_trip (x : Int) (hlo : -32768 ≤ x) (hhi : x < 32768) :
    decode_wire_payload (encode_ess_temperature x) = x := by
  unfold decode_wire_payload encode_ess_temperature
  simp only [List.headD_cons, List.getD_cons_succ, List.getD_cons_zero]
  split <;> omega

/-- Witness for C2 at the spec's example reading 2350 = 0x092E. -/
theorem wire_payload_round_trip_witness :
    decode_wire_payload (encode_ess_temperature 2350) = 2350 :=
  wire_payload_round_trip 2350 (by decide) (by decide)

/-- C7: every tick stores the freshly encoded reading as the current
observable value `app_ess_temperature`, whatever the connection and
subscription state; and when connected with notifications disabled the
tick issues zero notification requests. -/
theorem tick_updates_observable_value (env : Env) (cfg : Config) (temperature : Int)
    (st : AppState) :
    (seconds_timer_temperature_cb env cfg temperature st).1.app_ess_temperature =
      encode_ess_temperature temperature ∧
    (if st.thermistor_conn_id ≠ 0 ∧
        st.client_char_config0 &&& GATT_CLIENT_CONFIG_NOTIFICATION = 0
     then sendCount (seconds_timer_temperature_cb env cfg temperature st).2 = 0
     else True) := by
  unfold seconds_timer_temperature_cb sendCount
  by_cases h1 : st.thermistor_conn_id ≠ 0 <;>
    by_cases h2 : st.client_char_config0 &&& GATT_CLIENT_CONFIG_NOTIFICATION = 0 <;>
      simp [h1, h2, isSendNotification]

/-- C9: no operation of this file writes the connection-subscription state.
The management callback returns the shared globals unchanged for every
event, and the timer-tick handler changes exactly the 2-byte current-value
buffer `app_ess_temperature`, leaving `thermistor_conn_id` and both bytes
of the client characteristic configuration untouched. -/
theorem shared_state_frame :
    (∀ (event : MgmtEvent) (env : Env) (cfg : Config) (st : AppState),
        (thermistor_management_callback event env cfg st).1 = st) ∧
    (∀ (env : Env) (cfg : Config) (temperature : Int) (st : AppState),
        (seconds_timer_temperature_cb env cfg temperature st).1 =
          { st with app_ess_temperature := encode_ess_temperature temperature }) := by
  constructor
  · intro event env cfg st
    cases event <;> rfl
  · intro env cfg temperature st
    unfold seconds_timer_temperature_cb
    by_cases h1 : st.thermistor_conn_id ≠ 0 <;>
      by_cases h2 : st.client_char_config0 &&& GATT_CLIENT_CONFIG_NOTIFICATION ≠ 0 <;>
        simp [h1, h2]

/-- C10: the notify-enabled side of the gate is a test of only the GATT
notification bit (bit 0) of the first configuration byte: the number of
send requests a tick issues equals 1 exactly when connected and that bit
is set (`client_char_config0 % 2 = 1`), so any first byte with the bit
clear — e.g. only the indication bit set — yields no send, any value with
the bit set counts as enabled, and the second byte is never consulted. -/
theorem gate_tests_only_notification_bit (env : Env) (cfg : Config)
    (temperature : Int) (st : AppState) :
    sendCount (seconds_timer_temperature_cb env cfg temperature st).2 =
      (if st.thermistor_conn_id ≠ 0 ∧ st.client_char_config0 % 2 = 1
       then 1 else 0) := by
  unfold seconds_timer_temperature_cb sendCount
  have hbit : st.client_char_config0 &&& GATT_CLIENT_CONFIG_NOTIFICATION =
      st.client_char_config0 % 2 := Nat.and_one_is_mod _
  by_cases h1 : st.thermistor_conn_id ≠ 0 <;>
    by_cases h2 : st.client_char_config0 % 2 = 1 <;>
      simp [h1, h2, hbit, isSendNotification]

end Thermistor

namespace Thermistor

/-- C3 (code evaluation): the advertisement payload the code builds always
has exactly 3 elements; element 0 is the 1-byte flags element
(general-discoverable | BR/EDR-not-supported), element 1 carries the
device-name bytes under the complete-local-name tag, but element 2 — the
service element — carries the flags type tag again, not a 16-bit
service-UUID tag, and its data pointer addresses a single byte. -/
theorem adv_service_element_tag_defect (env : Env) (cfg : Config) :
    (thermistor_set_advertisement_data env cfg).2 =
      [Effect.setRawAdvertisementData 3 (adv_elem cfg)] ∧
    (adv_elem cfg).length = 3 ∧
    ((adv_elem cfg).getD 0 ⟨0, 0, []⟩).advert_type = BTM_BLE_ADVERT_TYPE_FLAG ∧
    ((adv_elem cfg).getD 0 ⟨0, 0, []⟩).len = 1 ∧
    ((adv_elem cfg).getD 0 ⟨0, 0, []⟩).p_data =
      [BTM_BLE_GENERAL_DISCOVERABLE_FLAG ||| BTM_BLE_BREDR_NOT_SUPPORTED] ∧
    ((adv_elem cfg).getD 1 ⟨0, 0, []⟩).advert_type = BTM_BLE_ADVERT_TYPE_NAME_COMPLETE ∧
    ((adv_elem cfg).getD 1 ⟨0, 0, []⟩).len = cfg.app_gap_device_name_len ∧
    ((adv_elem cfg).getD 1 ⟨0, 0, []⟩).p_data = cfg.app_gap_device_name ∧
    ((adv_elem cfg).getD 2 ⟨0, 0, []⟩).advert_type = BTM_BLE_ADVERT_TYPE_FLAG ∧
    ((adv_elem cfg).getD 2 ⟨0, 0, []⟩).advert_type ≠ BTM_BLE_ADVERT_TYPE_16SRV_COMPLETE ∧
    ((adv_elem cfg).getD 2 ⟨0, 0, []⟩).advert_type ≠ BTM_BLE_ADVERT_TYPE_16SRV_PARTIAL ∧
    ((adv_elem cfg).getD 2 ⟨0, 0, []⟩).p_data = [cfg.uuid_adv_byte] := by
  refine ⟨rfl, rfl, rfl, rfl, rfl, rfl, rfl, rfl, rfl, ?_, ?_, rfl⟩ <;>
    simp [adv_elem, BTM_BLE_ADVERT_TYPE_FLAG, BTM_BLE_ADVERT_TYPE_16SRV_COMPLETE,
      BTM_BLE_ADVERT_TYPE_16SRV_PARTIAL]

/-- C4: in the one-time initialization sequence, service-table registration
(GATT register and database load) and sensor initialization all occur, each
exactly once, and all of them strictly precede any arming of the periodic
timer and the advertising start: restricted to those five effects, the
sequence is exactly register, db-load, sensor-init, then (if timer creation
succeeded) the timer arm, then the advertising start. -/
theorem init_setup_before_launch (env : Env) (cfg : Config) :
    (thermistor_app_init env cfg).filter isSetupOrLaunch =
      [Effect.gattRegister, Effect.gattDbInit, Effect.thermistorInit] ++
      (if env.init_timer_result = WICED_SUCCESS
        then [Effect.startTimer POLL_TIMER_IN_MS] else []) ++
      [Effect.startAdvertisements BTM_BLE_ADVERT_UNDIRECTED_HIGH BLE_ADDR_PUBLIC] := by
  unfold thermistor_app_init thermistor_set_advertisement_data
  by_cases h1 : env.gatt_db_init_status = WICED_BT_GATT_SUCCESS <;>
  by_cases h2 : env.init_timer_result = WICED_SUCCESS <;>
  by_cases h3 : env.start_timer_result = WICED_SUCCESS <;>
  by_cases h4 : env.set_raw_adv_result = WICED_SUCCESS <;>
  by_cases h5 : env.ota_init_ok = false <;>
  by_cases h6 : env.start_adv_result = WICED_SUCCESS <;>
  simp [h1, h2, h3, h4, h5, h6, isSetupOrLaunch]

/-- C8: the sampling timer is created periodic and armed exactly once,
during startup initialization, with the fixed 5000 ms period: within
`thermistor_app_init` the timer operations are exactly the periodic
creation followed (when creation succeeded) by the single arm with
`POLL_TIMER_IN_MS = 5000`; the management callback performs timer
operations only through that initialization (on `BTM_ENABLED_EVT`), and
the tick handler performs none — in particular no effect of this file ever
pauses the timer or re-arms it with a different period. -/
theorem timer_armed_once_fixed_period (env : Env) (cfg : Config) :
    POLL_TIMER_IN_MS = 5000 ∧
    (thermistor_app_init env cfg).filter isTimerOp =
      [Effect.initTimer TimerMode.WICED_MILLI_SECONDS_PERIODIC_TIMER] ++
      (if env.init_timer_result = WICED_SUCCESS
        then [Effect.startTimer POLL_TIMER_IN_MS] else []) ∧
    (∀ (event : MgmtEvent) (st : AppState),
        ((thermistor_management_callback event env cfg st).2.1.filter isTimerOp) =
          if event = MgmtEvent.BTM_ENABLED_EVT
            then (thermistor_app_init env cfg).filter isTimerOp else []) ∧
    (∀ (temperature : Int) (st : AppState),
        (seconds_timer_temperature_cb env cfg temperature st).2.filter isTimerOp = []) := by
  have hinit : (thermistor_app_init env cfg).filter isTimerOp =
      [Effect.initTimer TimerMode.WICED_MILLI_SECONDS_PERIODIC_TIMER] ++
      (if env.init_timer_result = WICED_SUCCESS
        then [Effect.startTimer POLL_TIMER_IN_MS] else []) := by
    unfold thermistor_app_init thermistor_set_advertisement_data
    by_cases h1 : env.gatt_db_init_status = WICED_BT_GATT_SUCCESS <;>
    by_cases h2 : env.init_timer_result = WICED_SUCCESS <;>
    by_cases h3 : env.start_timer_result = WICED_SUCCESS <;>
    by_cases h4 : env.set_raw_adv_result = WICED_SUCCESS <;>
    by_cases h5 : env.ota_init_ok = false <;>
    by_cases h6 : env.start_adv_result = WICED_SUCCESS <;>
    simp [h1, h2, h3, h4, h5, h6, isTimerOp]
  refine ⟨rfl, hinit, ?_, ?_⟩
  · intro event st
    cases event <;> simp [thermistor_management_callback, isTimerOp]
  · intro temperature st
    unfold seconds_timer_temperature_cb
    by_cases h1 : st.thermistor_conn_id ≠ 0 <;>
      by_cases h2 : st.client_char_config0 &&& GATT_CLIENT_CONFIG_NOTIFICATION ≠ 0 <;>
        simp [h1, h2, isTimerOp]

end Thermistor

namespace Thermistor

/-- C5 counterexample: in a run where every initialization call succeeds
except the final `wiced_bt_start_advertisements` (which fails), the
initialization sequence emits no failure diagnostic at all — the failing
advertising-start call is its very last effect and nothing (in particular
no log line) follows it — so the advertising-start step does not report
its failure via a diagnostic log, contrary to the claim. -/
theorem adv_start_failure_unlogged :
    envAdvStartFails.start_adv_result ≠ WICED_SUCCESS ∧
    thermistor_app_init envAdvStartFails cfgExample =
      [Effect.gattRegister,
       Effect.trace (LogMsg.gattStatusName 0),
       Effect.gattDbInit,
       Effect.thermistorInit,
       Effect.initTimer TimerMode.WICED_MILLI_SECONDS_PERIODIC_TIMER,
       Effect.startTimer POLL_TIMER_IN_MS,
       Effect.setRawAdvertisementData 3 (adv_elem cfgExample),
       Effect.setPairableMode false true,
       Effect.otaFwUpgradeInit,
       Effect.startAdvertisements BTM_BLE_ADVERT_UNDIRECTED_HIGH BLE_ADDR_PUBLIC] ∧
    (thermistor_app_init envAdvStartFails cfgExample).filter isFailureTrace = [] :=
  ⟨by decide, rfl, rfl⟩

/-- C5 amended: no failing initialization step aborts the remaining steps —
every external call of the sequence occurs in every run — and the service
registration (whose status is always logged), database load, timer arm,
advertisement set and upgrade init each report failure via their own
diagnostic; the advertising-start step, however, logs success rather than
failure. With only the advertisement-set step failing, these equivalences
give exactly one failure log (the advertisement one) while pairability,
upgrade init and advertising start still execute. -/
theorem init_failures_nonfatal (env : Env) (cfg : Config) :
    (Effect.gattRegister ∈ thermistor_app_init env cfg ∧
     Effect.gattDbInit ∈ thermistor_app_init env cfg ∧
     Effect.thermistorInit ∈ thermistor_app_init env cfg ∧
     Effect.initTimer TimerMode.WICED_MILLI_SECONDS_PERIODIC_TIMER ∈
       thermistor_app_init env cfg ∧
     Effect.setRawAdvertisementData 3 (adv_elem cfg) ∈ thermistor_app_init env cfg ∧
     Effect.setPairableMode false true ∈ thermistor_app_init env cfg ∧
     Effect.otaFwUpgradeInit ∈ thermistor_app_init env cfg ∧
     Effect.startAdvertisements BTM_BLE_ADVERT_UNDIRECTED_HIGH BLE_ADDR_PUBLIC ∈
       thermistor_app_init env cfg) ∧
    Effect.trace (LogMsg.gattStatusName env.gatt_register_status) ∈
      thermistor_app_init env cfg ∧
    (Effect.trace LogMsg.gattDbInitFailed ∈ thermistor_app_init env cfg ↔
      env.gatt_db_init_status ≠ WICED_BT_GATT_SUCCESS) ∧
    (Effect.trace LogMsg.secondsTimerError ∈ thermistor_app_init env cfg ↔
      env.init_timer_result = WICED_SUCCESS ∧ env.start_timer_result ≠ WICED_SUCCESS) ∧
    (Effect.trace LogMsg.rawAdvertisementFailed ∈ thermistor_app_init env cfg ↔
      env.set_raw_adv_result ≠ WICED_SUCCESS) ∧
    (Effect.trace LogMsg.otaInitFailure ∈ thermistor_app_init env cfg ↔
      env.ota_init_ok = false) ∧
    (Effect.trace LogMsg.startAdvSuccess ∈ thermistor_app_init env cfg ↔
      env.start_adv_result = WICED_SUCCESS) := by
  unfold thermistor_app_init thermistor_set_advertisement_data
  refine ⟨⟨?_, ?_, ?_, ?_, ?_, ?_, ?_, ?_⟩, ?_, ?_, ?_, ?_, ?_, ?_⟩ <;>
    simp [List.mem_append, List.mem_ite_nil_right]

/-- C6 counterexample: with the gate passing (connected, notifications
enabled) and the stack reporting a delivery failure for the notification
(status 0x85), the tick's effect list is exactly a temperature trace, the
notifications-enabled trace and the send request itself: the send is the
last effect, nothing is logged after it, and no failure diagnostic occurs
anywhere, so a delivery failure is not logged, contrary to the claim. -/
theorem send_failure_unlogged :
    envSendFails.send_notification_status ≠ WICED_BT_GATT_SUCCESS ∧
    (seconds_timer_temperature_cb envSendFails cfgExample 2350
        ⟨1, 1, 0, [0, 0]⟩).2 =
      [Effect.trace (LogMsg.temperatureReading 2350),
       Effect.trace LogMsg.connectedNotifyEnabled,
       Effect.sendNotification 1 0x29 2 [0x2E, 0x09]] ∧
    (seconds_timer_temperature_cb envSendFails cfgExample 2350
        ⟨1, 1, 0, [0, 0]⟩).2.filter isFailureTrace = [] :=
  ⟨by decide, rfl, rfl⟩

/-- C6 amended: when the gate passes, the notification call is
fire-and-forget — the tick's outcome (new state and effects) is identical
whatever status the stack reports for the send, at most one send request
is issued per tick (no retry), and the tick never emits a failure
diagnostic: the delivery status is discarded without being examined or
logged, and the next tick re-evaluates the gate afresh on the then-current
state. -/
theorem notification_fire_and_forget (env1 env2 : Env) (cfg : Config)
    (temperature : Int) (st : AppState) :
    seconds_timer_temperature_cb env1 cfg temperature st =
      seconds_timer_temperature_cb env2 cfg temperature st ∧
    sendCount (seconds_timer_temperature_cb env1 cfg temperature st).2 ≤ 1 ∧
    (seconds_timer_temperature_cb env1 cfg temperature st).2.filter
      isFailureTrace = [] := by
  refine ⟨rfl, ?_, ?_⟩ <;>
    (unfold seconds_timer_temperature_cb
     by_cases h1 : st.thermistor_conn_id ≠ 0 <;>
       by_cases h2 : st.client_char_config0 &&& GATT_CLIENT_CONFIG_NOTIFICATION ≠ 0 <;>
         simp [h1, h2, sendCount, isSendNotification, isFailureTrace, isFailureLog])

end Thermistor
